import Mathlib

/-!
# Verification of RAK4631-DeepSleep lora.cpp

Shallow embedding of `src/PlatformIO/LoRa-DeepSleep/src/lora.cpp`
(the only source file of the repository).  The file is compiled with
`TX_ONLY` defined (line 14 of the source), so every `#ifdef TX_ONLY`
branch is the live one and the `Radio.SetRxDutyCycle` alternatives are
dead code; the embedding models the compiled `TX_ONLY` program.

The `MYLOG_LOG_LEVEL > MYLOG_LOG_LEVEL_NONE` conditional compilation
(guarding the indicator LED writes and the receive hex dump) is kept as
an explicit Boolean parameter `logEnabled` of each operation, so that
both build profiles are covered by one definition.

Each C function becomes a Lean function from an explicit program state
to a new state paired with the ordered list of externally observable
effects it performs (radio driver calls, semaphore operations, LED
writes, log output, delays).  Machine bytes (`uint8_t`) are modelled as
`Nat` values below 256, with signed assignments truncated through `u8`.
-/

set_option autoImplicit false

namespace LoRaDeepSleep

/-- Truncation of a signed integer assignment into a `uint8_t` cell
(two-complement wrap, value taken mod 256). -/
def u8 (x : Int) : Nat := (x % 256).toNat

/-- Observable radio power/operation state, tracked through the sequence
of driver calls the source issues (`Radio.Sleep`, `Radio.StartCad`,
`Radio.Send`). -/
inductive RadioState where
  | Uninit
  | Sleeping
  | Cad
  | Sending
  deriving DecidableEq, Repr

/-- One externally observable effect: a call into the radio driver
facade, a FreeRTOS semaphore operation, an indicator LED write, a log
line, a busy delay, or interrupt attachment. -/
inductive Eff where
  | radioInit
  | radioSleep
  | radioStandby
  | radioSetChannel (freq : Nat)
  | radioSetTxConfig
  | radioSetRxConfig
  | radioSetCadParams (cadSymbolNum cadDetPeak cadDetMin cadExitMode cadTimeout : Nat)
  | radioStartCad
  | radioSend (buf : List Nat) (size : Nat)
  | radioIrqProcess
  | semGiveLora
  | semTakeLora (timeoutTicks : Nat)
  | semGiveTask
  | ledWrite (high : Bool)
  | logMsg
  | delayMs (ms : Nat)
  | attachInt (pin : Nat)
  deriving DecidableEq, Repr

/-- The mutable program state of lora.cpp: the global transmit buffer
`TxdBuffer`, the radio state, the indicator LED, the two binary
semaphores (`loraEvent` of this file and the external `taskEvent`),
and the remaining file-scope globals. -/
structure LoraState where
  txdBuffer : Nat → Nat
  radio : RadioState
  ledConn : Bool
  loraEventInit : Bool
  loraEventSem : Bool
  taskEventInit : Bool
  taskEventSem : Bool
  eventType : Nat
  cadTime : Nat
  channelTimeout : Nat
  channelFreeRetryNum : Nat
  lastRSSI : Int

/-- Point update of one byte cell of a byte buffer. -/
def writeByte (buf : Nat → Nat) (i v : Nat) : Nat → Nat :=
  fun j => if j = i then v else buf j

-- Configuration constants of lora.cpp (lines 17 to 29).
def RF_FREQUENCY : Nat := 923300000
def LORA_SPREADING_FACTOR : Nat := 7
def PIN_LORA_DIO_1 : Nat := 47
-- Driver library enumerator values (SX126x-Arduino, out of scope of
-- the repository; passed through as opaque parameters).
def LORA_CAD_08_SYMBOL : Nat := 3
def LORA_CAD_ONLY : Nat := 0

/-- `loraIntHandler` (lines 66 to 74): the DIO1 interrupt handler.
If the `loraEvent` semaphore exists it gives it; otherwise nothing. -/
def loraIntHandler (s : LoraState) : LoraState × List Eff :=
  if s.loraEventInit then
    ({ s with loraEventSem := true }, [Eff.semGiveLora])
  else
    (s, [])

/-- One iteration of the body of `loraTask` (lines 150 to 167): block on
the `loraEvent` semaphore; once obtained, switch the indicator on (when
compiled in) and call `Radio.IrqProcessAfterDeepSleep()`.  A step taken
while no credit is available leaves everything unchanged (the task is
still blocked in `xSemaphoreTake`). -/
def loraTaskStep (logEnabled : Bool) (s : LoraState) : LoraState × List Eff :=
  if s.loraEventSem then
    ({ s with
        loraEventSem := false
        ledConn := if logEnabled then true else s.ledConn },
     (if logEnabled then [Eff.ledWrite true] else []) ++ [Eff.radioIrqProcess])
  else
    (s, [])

/-- The fourteen constant byte assignments of `sendLoRa` (lines 175 to
188) applied in source order to the prior `TxdBuffer`. -/
def buildFrame (buf : Nat → Nat) : Nat → Nat :=
  writeByte (writeByte (writeByte (writeByte (writeByte (writeByte (writeByte
    (writeByte (writeByte (writeByte (writeByte (writeByte (writeByte (writeByte
      buf 0 (u8 7)) 1 (u8 0)) 2 (u8 0)) 3 (u8 27)) 4 (u8 35)) 5 (u8 67))
      6 (u8 55)) 7 (u8 34)) 8 (u8 12)) 9 (u8 75)) 10 (u8 0)) 11 (u8 (-80)))
      12 (u8 0)) 13 (u8 0)

/-- `sendLoRa` (lines 173 to 206): fill `TxdBuffer`, `Radio.Sleep()`,
`Radio.SetCadParams(LORA_CAD_08_SYMBOL, LORA_SPREADING_FACTOR + 13, 10,
LORA_CAD_ONLY, 0)`, record `cadTime` and `channelTimeout` from
`millis()` (parameter `now`), switch the indicator on (when compiled
in), `Radio.StartCad()`, then drain a stale `loraEvent` credit with
`xSemaphoreTake(loraEvent, 10)`. -/
def sendLoRa (now : Nat) (logEnabled : Bool) (s : LoraState) : LoraState × List Eff :=
  ({ s with
      txdBuffer := buildFrame s.txdBuffer
      radio := RadioState.Cad
      cadTime := now
      channelTimeout := now
      ledConn := if logEnabled then true else s.ledConn
      loraEventSem := false },
   [Eff.radioSleep,
    Eff.radioSetCadParams LORA_CAD_08_SYMBOL (LORA_SPREADING_FACTOR + 13) 10
      LORA_CAD_ONLY 0]
   ++ (if logEnabled then [Eff.ledWrite true] else [])
   ++ [Eff.radioStartCad, Eff.semTakeLora 10])

/-- The first `n` bytes of a buffer, as the driver send call reads
them. -/
def readBytes (buf : Nat → Nat) (n : Nat) : List Nat :=
  (List.range n).map buf

/-- The 14 frame bytes `sendLoRa` writes, as transmitted unsigned
values. -/
def frameBytes : List Nat := [7, 0, 0, 27, 35, 67, 55, 34, 12, 75, 0, 176, 0, 0]

/-- `OnCadDone` (lines 358 to 386).  `cadResult = true` means channel
activity was detected (channel busy): sleep the radio, clear the
indicator (when compiled in), drain a stale credit.  `cadResult = false`
means channel free: log the CAD duration and call
`Radio.Send(TxdBuffer, 14)`. -/
def OnCadDone (cadResult : Bool) (logEnabled : Bool) (s : LoraState) : LoraState × List Eff :=
  if cadResult then
    ({ s with
        radio := RadioState.Sleeping
        ledConn := if logEnabled then false else s.ledConn
        loraEventSem := false },
     [Eff.radioSleep]
     ++ (if logEnabled then [Eff.ledWrite false] else [])
     ++ [Eff.semTakeLora 10])
  else
    ({ s with radio := RadioState.Sending },
     (if logEnabled then [Eff.logMsg] else [])
     ++ [Eff.radioSend (readBytes s.txdBuffer 14) 14])

/-- `OnTxDone` (lines 211 to 232): log, `Radio.Sleep()`, indicator off
(when compiled in), drain a stale credit. -/
def OnTxDone (logEnabled : Bool) (s : LoraState) : LoraState × List Eff :=
  ({ s with
      radio := RadioState.Sleeping
      ledConn := if logEnabled then false else s.ledConn
      loraEventSem := false },
   (if logEnabled then [Eff.logMsg] else [])
   ++ [Eff.radioSleep]
   ++ (if logEnabled then [Eff.ledWrite false] else [])
   ++ [Eff.semTakeLora 10])

/-- `OnRxDone` (lines 236 to 278): log, `delay(10)`, set `eventType` to
0, give `taskEvent` when it exists, dump the payload (when compiled in),
`Radio.Sleep()`, indicator off (when compiled in), drain a stale
credit.  The payload, size, rssi and snr arguments only feed the log
output. -/
def OnRxDone (payload : Nat → Nat) (size : Nat) (rssi : Int) (snr : Int)
    (logEnabled : Bool) (s : LoraState) : LoraState × List Eff :=
  ({ s with
      eventType := 0
      taskEventSem := if s.taskEventInit then true else s.taskEventSem
      radio := RadioState.Sleeping
      ledConn := if logEnabled then false else s.ledConn
      loraEventSem := false },
   (if logEnabled then [Eff.logMsg] else [])
   ++ [Eff.delayMs 10]
   ++ (if s.taskEventInit then [Eff.semGiveTask] else [])
   ++ (if logEnabled then [Eff.logMsg] else [])
   ++ [Eff.radioSleep]
   ++ (if logEnabled then [Eff.ledWrite false] else [])
   ++ [Eff.semTakeLora 10])

/-- `OnTxTimeout` (lines 282 to 304): log, `Radio.Sleep()`, indicator
off (when compiled in), drain a stale credit. -/
def OnTxTimeout (logEnabled : Bool) (s : LoraState) : LoraState × List Eff :=
  ({ s with
      radio := RadioState.Sleeping
      ledConn := if logEnabled then false else s.ledConn
      loraEventSem := false },
   (if logEnabled then [Eff.logMsg] else [])
   ++ [Eff.radioSleep]
   ++ (if logEnabled then [Eff.ledWrite false] else [])
   ++ [Eff.semTakeLora 10])

/-- `OnRxTimeout` (lines 308 to 330): same shape as `OnTxTimeout`. -/
def OnRxTimeout (logEnabled : Bool) (s : LoraState) : LoraState × List Eff :=
  ({ s with
      radio := RadioState.Sleeping
      ledConn := if logEnabled then false else s.ledConn
      loraEventSem := false },
   (if logEnabled then [Eff.logMsg] else [])
   ++ [Eff.radioSleep]
   ++ (if logEnabled then [Eff.ledWrite false] else [])
   ++ [Eff.semTakeLora 10])

/-- `OnRxError` (lines 334 to 354): like the timeouts but issues no log
call. -/
def OnRxError (logEnabled : Bool) (s : LoraState) : LoraState × List Eff :=
  ({ s with
      radio := RadioState.Sleeping
      ledConn := if logEnabled then false else s.ledConn
      loraEventSem := false },
   [Eff.radioSleep]
   ++ (if logEnabled then [Eff.ledWrite false] else [])
   ++ [Eff.semTakeLora 10])

/-- `initLoRa` (lines 76 to 144): create and cycle the `loraEvent`
semaphore, call `lora_rak4630_init()` (its return value is the
parameter `loraRak4630InitRet`; the source treats return value 1 as
failure), then register callbacks, `Radio.Init`, `Radio.Sleep`,
`Radio.SetChannel`, the Tx and Rx configs, attach the DIO1 interrupt,
create the task (`taskCreateOk`), and in the `TX_ONLY` build sleep the
radio again.  Returns `false` on driver-init failure or task-creation
failure, `true` otherwise. -/
def initLoRa (loraRak4630InitRet : Nat) (taskCreateOk : Bool) (logEnabled : Bool)
    (s : LoraState) : LoraState × List Eff × Bool :=
  let logE : List Eff := if logEnabled then [Eff.logMsg] else []
  let pre : List Eff :=
    logE ++ [Eff.delayMs 100] ++ logE ++ [Eff.delayMs 100, Eff.semGiveLora]
    ++ logE ++ [Eff.delayMs 100, Eff.semTakeLora 10]
  let s1 : LoraState := { s with loraEventInit := true, loraEventSem := false }
  if loraRak4630InitRet = 1 then
    (s1, pre, false)
  else
    let s2 : LoraState := { s1 with radio := RadioState.Sleeping }
    let effs : List Eff :=
      pre ++ [Eff.radioInit, Eff.radioSleep, Eff.radioSetChannel RF_FREQUENCY,
              Eff.radioSetTxConfig, Eff.radioSetRxConfig,
              Eff.attachInt PIN_LORA_DIO_1] ++ logE
    if taskCreateOk then
      (s2, effs ++ [Eff.radioSleep], true)
    else
      (s2, effs, false)

/-- The `Radio.Send` calls contained in an effect list. -/
def sendCalls (effs : List Eff) : List Eff :=
  effs.filter fun e =>
    match e with
    | Eff.radioSend _ _ => true
    | _ => false

/-- A concrete initial state: zeroed buffer, radio not yet initialized,
no semaphores, everything 0/false. -/
def s0 : LoraState :=
  { txdBuffer := fun _ => 0
    radio := RadioState.Uninit
    ledConn := false
    loraEventInit := false
    loraEventSem := false
    taskEventInit := false
    taskEventSem := false
    eventType := 0
    cadTime := 0
    channelTimeout := 0
    channelFreeRetryNum := 0
    lastRSSI := 0 }

/-- A state whose two dead diagnostic globals `channelFreeRetryNum` and
`channelTimeout` are replaced by arbitrary values `c` and `m`. -/
def withDead (s : LoraState) (c m : Nat) : LoraState :=
  { s with channelFreeRetryNum := c, channelTimeout := m }

/-- Normalize the two dead diagnostic globals to zero, so that equality
of scrubbed states is agreement on every other field. -/
def scrubDead (s : LoraState) : LoraState :=
  { s with channelFreeRetryNum := 0, channelTimeout := 0 }

/-- The events of the interrupt/dispatch concurrency model: a rising
edge on DIO1 (running `loraIntHandler`), or one scheduling step of the
blocked `loraTask`. -/
inductive SysEvent where
  | edge
  | loopStep
  deriving DecidableEq, Repr

/-- Interpret one system event on the shared state. -/
def sysStep (logEnabled : Bool) : SysEvent → LoraState → LoraState × List Eff
  | SysEvent.edge, s => loraIntHandler s
  | SysEvent.loopStep, s => loraTaskStep logEnabled s

/-- Run a finite sequence of system events, accumulating all observable
effects in order. -/
def runSys (logEnabled : Bool) : List SysEvent → LoraState → LoraState × List Eff
  | [], s => (s, [])
  | ev :: rest, s =>
    ((runSys logEnabled rest (sysStep logEnabled ev s).1).1,
     (sysStep logEnabled ev s).2
       ++ (runSys logEnabled rest (sysStep logEnabled ev s).1).2)

/-- Number of `Radio.IrqProcessAfterDeepSleep` calls (dispatch-loop
wake-ups that process the pending interrupt) in an effect list. -/
def countIrq : List Eff → Nat
  | [] => 0
  | e :: rest => (if e = Eff.radioIrqProcess then 1 else 0) + countIrq rest

/-- Number of interrupt edges in an event sequence. -/
def countEdges : List SysEvent → Nat
  | [] => 0
  | e :: rest => (if e = SysEvent.edge then 1 else 0) + countEdges rest

theorem countIrq_append (xs ys : List Eff) :
    countIrq (xs ++ ys) = countIrq xs + countIrq ys := by
  induction xs with
  | nil => simp [countIrq]
  | cons e rest ih =>
    simp [countIrq, ih]
    omega

/-- The wake-credit invariant: over any event sequence the number of
interrupt-processing wake-ups is bounded by the number of edges plus
the one credit that may already be pending. -/
theorem runSys_irq_bound (lg : Bool) (evs : List SysEvent) :
    ∀ s : LoraState,
      countIrq (runSys lg evs s).2
        ≤ countEdges evs + (if s.loraEventSem then 1 else 0) := by
  induction evs with
  | nil =>
    intro s
    simp [runSys, countIrq]
  | cons ev rest ih =>
    intro s
    cases ev with
    | edge =>
      cases hli : s.loraEventInit with
      | true =>
        have h1 := ih { s with loraEventSem := true }
        simp only [runSys, sysStep, loraIntHandler, hli, if_true,
          countIrq_append, countIrq, countEdges] at h1 ⊢
        simp at h1 ⊢
        omega
      | false =>
        have h1 := ih s
        simp only [runSys, sysStep, loraIntHandler, hli, if_false,
          countIrq_append, countIrq, countEdges] at h1 ⊢
        simp at h1 ⊢
        omega
    | loopStep =>
      cases hls : s.loraEventSem with
      | true =>
        have h1 := ih { s with
          loraEventSem := false
          ledConn := if lg then true else s.ledConn }
        simp only [runSys, sysStep, loraTaskStep, hls, if_true,
          countIrq_append, countIrq, countEdges] at h1 ⊢
        cases lg <;> simp [countIrq_append, countIrq] at h1 ⊢ <;> omega
      | false =>
        have h1 := ih s
        simp only [runSys, sysStep, loraTaskStep, hls, if_false,
          countIrq_append, countIrq, countEdges] at h1 ⊢
        simp at h1 ⊢
        omega

theorem readBytes_buildFrame (buf : Nat → Nat) :
    readBytes (buildFrame buf) 14 = frameBytes := rfl

example : readBytes (buildFrame s0.txdBuffer) 14 = frameBytes := by rfl

example : (sendLoRa 5 false s0).2
    = [Eff.radioSleep, Eff.radioSetCadParams 3 20 10 0 0,
       Eff.radioStartCad, Eff.semTakeLora 10] := by rfl

/-- A state some cycles into execution, with nonzero prior buffer
contents and nonzero dead diagnostic globals. -/
def sAlt : LoraState :=
  { s0 with
      txdBuffer := fun _ => 255
      loraEventInit := true
      channelFreeRetryNum := 3
      channelTimeout := 42 }

/-- A state in the middle of a CAD cycle: radio performing CAD,
indicator on, a stale wake credit pending. -/
def cadState : LoraState :=
  { s0 with
      radio := RadioState.Cad
      ledConn := true
      loraEventInit := true
      loraEventSem := true }

/-- An idle state: semaphore initialized, no credit pending. -/
def sIdle : LoraState := { s0 with loraEventInit := true }

/-- The uniform callback post-condition the spec asserts: radio
sleeping, stale wake credit consumed, indicator cleared (when the
indicator is compiled in; otherwise it is untouched). -/
def sleepingPost (logEnabled : Bool) (pre post : LoraState) : Prop :=
  post.radio = RadioState.Sleeping
  ∧ post.loraEventSem = false
  ∧ post.ledConn = (if logEnabled then false else pre.ledConn)

/-- C1: after a `sendLoRa` cycle, `OnCadDone(false)` performs exactly
one `Radio.Send`, with the 14 frame bytes that `sendLoRa` just wrote
and length 14, while `OnCadDone(true)` performs no send at all. -/
theorem cad_gated_send (now : Nat) (logS logC : Bool) (s : LoraState) :
    sendCalls (OnCadDone false logC (sendLoRa now logS s).1).2
      = [Eff.radioSend (readBytes (sendLoRa now logS s).1.txdBuffer 14) 14]
    ∧ readBytes (sendLoRa now logS s).1.txdBuffer 14 = frameBytes
    ∧ sendCalls (OnCadDone true logC (sendLoRa now logS s).1).2 = [] := by
  cases logS <;> cases logC <;> exact ⟨rfl, rfl, rfl⟩

/-- C2 counterexample: in a concrete mid-CAD state with the indicator
on and a stale credit pending, `OnCadDone(false)` leaves the radio
Sending (not Sleeping), the indicator on, and the credit unconsumed —
the claimed uniform post-condition fails for this callback. -/
theorem cadDone_free_breaks_post :
    (OnCadDone false true cadState).1.radio = RadioState.Sending
    ∧ (OnCadDone false true cadState).1.radio ≠ RadioState.Sleeping
    ∧ (OnCadDone false true cadState).1.ledConn = true
    ∧ (OnCadDone false true cadState).1.loraEventSem = true :=
  ⟨rfl, by decide, rfl, rfl⟩

/-- C2 (amended): five callbacks (`OnTxDone`, `OnRxDone`,
`OnTxTimeout`, `OnRxTimeout`, `OnRxError`) and the busy branch
`OnCadDone(true)` end with the radio Sleeping, the stale wake credit
consumed, and the indicator cleared when compiled in; the free branch
`OnCadDone(false)` is the exception: it starts a transmission, leaving
the radio Sending with indicator and credit untouched. -/
theorem callbacks_uniform_post (logEnabled : Bool) (s : LoraState)
    (payload : Nat → Nat) (size : Nat) (rssi snr : Int) :
    sleepingPost logEnabled s (OnTxDone logEnabled s).1
    ∧ sleepingPost logEnabled s (OnRxDone payload size rssi snr logEnabled s).1
    ∧ sleepingPost logEnabled s (OnTxTimeout logEnabled s).1
    ∧ sleepingPost logEnabled s (OnRxTimeout logEnabled s).1
    ∧ sleepingPost logEnabled s (OnRxError logEnabled s).1
    ∧ sleepingPost logEnabled s (OnCadDone true logEnabled s).1
    ∧ (OnCadDone false logEnabled s).1.radio = RadioState.Sending
    ∧ (OnCadDone false logEnabled s).1.loraEventSem = s.loraEventSem
    ∧ (OnCadDone false logEnabled s).1.ledConn = s.ledConn :=
  ⟨⟨rfl, rfl, rfl⟩, ⟨rfl, rfl, rfl⟩, ⟨rfl, rfl, rfl⟩, ⟨rfl, rfl, rfl⟩,
   ⟨rfl, rfl, rfl⟩, ⟨rfl, rfl, rfl⟩, rfl, rfl, rfl⟩

/-- C3: after a `sendLoRa` cycle, `OnCadDone(false)` sends exactly one
14-byte buffer whose byte 0 is the device identifier 7; `OnCadDone(true)`
sends nothing and leaves the radio Sleeping. -/
theorem cadDone_scenarios (now : Nat) (logS logC : Bool) (s : LoraState) :
    sendCalls (OnCadDone false logC (sendLoRa now logS s).1).2
      = [Eff.radioSend frameBytes 14]
    ∧ frameBytes.length = 14
    ∧ (sendLoRa now logS s).1.txdBuffer 0 = 7
    ∧ frameBytes.getD 0 0 = 7
    ∧ sendCalls (OnCadDone true logC (sendLoRa now logS s).1).2 = []
    ∧ (OnCadDone true logC (sendLoRa now logS s).1).1.radio
        = RadioState.Sleeping := by
  cases logS <;> cases logC <;> exact ⟨rfl, rfl, rfl, rfl, rfl, rfl⟩

/-- C4: `loraIntHandler` is a no-op when `loraEvent` is null, and
otherwise its entire behavior is to give the semaphore: one
`semGiveLora` effect, no radio call, no log, no delay, and no state
change beyond setting the wake credit. -/
theorem loraIntHandler_minimal (s : LoraState) :
    (s.loraEventInit = false → loraIntHandler s = (s, []))
    ∧ (s.loraEventInit = true →
        loraIntHandler s
          = ({ s with loraEventSem := true }, [Eff.semGiveLora])) := by
  constructor <;> intro h <;> simp [loraIntHandler, h]

/-- C4 witness: the two hypotheses discharged at concrete states. -/
theorem loraIntHandler_minimal_check :
    loraIntHandler s0 = (s0, [])
    ∧ loraIntHandler sIdle
        = ({ sIdle with loraEventSem := true }, [Eff.semGiveLora]) :=
  ⟨(loraIntHandler_minimal s0).1 rfl, (loraIntHandler_minimal sIdle).2 rfl⟩

/-- C5 counterexample: at a concrete input, the second radio operation
of `sendLoRa` is `Radio.Sleep`, and no `Radio.Standby` call occurs
anywhere in the cycle — the claimed step (2) "put the radio into
standby" does not match the code, which calls `Radio.Sleep()` with
`Radio.Standby()` commented out. -/
theorem sendLoRa_no_standby :
    (sendLoRa 0 false s0).2
      = [Eff.radioSleep, Eff.radioSetCadParams 3 20 10 0 0,
         Eff.radioStartCad, Eff.semTakeLora 10]
    ∧ Eff.radioStandby ∉ (sendLoRa 0 false s0).2 :=
  ⟨rfl, by decide⟩

/-- C5 (amended): every `sendLoRa` call (1) overwrites the whole
frame, (2) puts the radio into sleep (not standby), (3) configures the
CAD parameters (8 symbols, peak threshold derived from the spreading
factor as SF + 13, minimum RSSI 10, CAD-only exit, no timeout),
(4) records `cadTime`, (5) starts CAD, in this driver-call order, and
returns with the radio in the CAD state, not waiting for completion. -/
theorem sendLoRa_sequence (now : Nat) (logEnabled : Bool) (s : LoraState) :
    (sendLoRa now logEnabled s).2
      = [Eff.radioSleep,
         Eff.radioSetCadParams LORA_CAD_08_SYMBOL
           (LORA_SPREADING_FACTOR + 13) 10 LORA_CAD_ONLY 0]
        ++ (if logEnabled then [Eff.ledWrite true] else [])
        ++ [Eff.radioStartCad, Eff.semTakeLora 10]
    ∧ readBytes (sendLoRa now logEnabled s).1.txdBuffer 14 = frameBytes
    ∧ (sendLoRa now logEnabled s).1.cadTime = now
    ∧ (sendLoRa now logEnabled s).1.radio = RadioState.Cad
    ∧ Eff.radioStandby ∉ (sendLoRa now logEnabled s).2 := by
  cases logEnabled <;> refine ⟨rfl, rfl, rfl, rfl, ?_⟩ <;> simp [sendLoRa]

/-- C6: every byte of the 14-byte frame written by `sendLoRa` is the
value of that invocation, independent of the prior buffer contents:
two runs from arbitrary different prior states agree on every frame
byte, which equals the constant frame value. -/
theorem sendLoRa_overwrites (n1 n2 : Nat) (l1 l2 : Bool) (s1 s2 : LoraState)
    (i : Nat) (hi : i < 14) :
    (sendLoRa n1 l1 s1).1.txdBuffer i = frameBytes.getD i 0
    ∧ (sendLoRa n1 l1 s1).1.txdBuffer i = (sendLoRa n2 l2 s2).1.txdBuffer i := by
  have key : ∀ b : Nat → Nat, buildFrame b i = frameBytes.getD i 0 := by
    intro b
    interval_cases i <;> rfl
  exact ⟨key s1.txdBuffer, (key s1.txdBuffer).trans (key s2.txdBuffer).symm⟩

/-- C6 witness: byte 11 coincides across a zeroed state and a state
whose prior buffer is all 255. -/
theorem sendLoRa_overwrites_check :
    (sendLoRa 0 false s0).1.txdBuffer 11 = frameBytes.getD 11 0
    ∧ (sendLoRa 0 false s0).1.txdBuffer 11
        = (sendLoRa 99 true sAlt).1.txdBuffer 11 :=
  sendLoRa_overwrites 0 99 false true s0 sAlt 11 (by decide)

/-- C7: `initLoRa` returns false exactly when the driver init call
returns its failure code 1 or the task creation fails; any other
combination returns true.  (The six runtime callbacks are plain state
transformers in this development, with no error channel at all, so no
runtime callback error can reach a caller.) -/
theorem initLoRa_failure_conditions (ret : Nat) (taskCreateOk logEnabled : Bool)
    (s : LoraState) :
    (initLoRa ret taskCreateOk logEnabled s).2.2 = false
      ↔ (ret = 1 ∨ taskCreateOk = false) := by
  by_cases h : ret = 1 <;> cases taskCreateOk <;> simp [initLoRa, h]

/-- C8: over any finite sequence of edges and dispatch-loop steps from
an idle state, the number of interrupt-processing wake-ups is at most
the number of edges; one edge while idle followed by a loop step yields
exactly one wake-up, and two back-to-back edges coalesce into a single
credit, still yielding exactly one wake-up. -/
theorem wake_coalescing (lg : Bool) (evs : List SysEvent) (s : LoraState)
    (hinit : s.loraEventInit = true) (hidle : s.loraEventSem = false) :
    countIrq (runSys lg evs s).2 ≤ countEdges evs
    ∧ countIrq (runSys lg [SysEvent.edge, SysEvent.loopStep] s).2 = 1
    ∧ countIrq (runSys lg [SysEvent.edge, SysEvent.edge, SysEvent.loopStep] s).2
        = 1 := by
  refine ⟨?_, ?_, ?_⟩
  · have h := runSys_irq_bound lg evs s
    rw [hidle] at h
    simpa using h
  · cases lg <;>
      simp [runSys, sysStep, loraIntHandler, loraTaskStep, hinit,
        countIrq_append, countIrq]
  · cases lg <;>
      simp [runSys, sysStep, loraIntHandler, loraTaskStep, hinit,
        countIrq_append, countIrq]

/-- C8 witness: the bound and both scenarios at a concrete idle
state. -/
theorem wake_coalescing_check :
    countIrq (runSys false [SysEvent.edge] sIdle).2 ≤ countEdges [SysEvent.edge]
    ∧ countIrq (runSys false [SysEvent.edge, SysEvent.loopStep] sIdle).2 = 1
    ∧ countIrq
        (runSys false [SysEvent.edge, SysEvent.edge, SysEvent.loopStep] sIdle).2
        = 1 :=
  wake_coalescing false [SysEvent.edge] sIdle rfl rfl

/-- C9: the dead globals `channelFreeRetryNum` and `channelTimeout`
are never read: replacing them by arbitrary values changes no effect
list and no other state field of any operation of the file, and on
channel busy the frame is dropped outright — `OnCadDone(true)` performs
no send and no CAD restart. -/
theorem deadVars_no_influence (c m now ret : Nat) (lg b ok : Bool)
    (payload : Nat → Nat) (size : Nat) (rssi snr : Int) (s : LoraState) :
    (sendLoRa now lg (withDead s c m)).2 = (sendLoRa now lg s).2
    ∧ scrubDead (sendLoRa now lg (withDead s c m)).1
        = scrubDead (sendLoRa now lg s).1
    ∧ (loraIntHandler (withDead s c m)).2 = (loraIntHandler s).2
    ∧ scrubDead (loraIntHandler (withDead s c m)).1
        = scrubDead (loraIntHandler s).1
    ∧ (loraTaskStep lg (withDead s c m)).2 = (loraTaskStep lg s).2
    ∧ scrubDead (loraTaskStep lg (withDead s c m)).1
        = scrubDead (loraTaskStep lg s).1
    ∧ (OnTxDone lg (withDead s c m)).2 = (OnTxDone lg s).2
    ∧ scrubDead (OnTxDone lg (withDead s c m)).1 = scrubDead (OnTxDone lg s).1
    ∧ (OnRxDone payload size rssi snr lg (withDead s c m)).2
        = (OnRxDone payload size rssi snr lg s).2
    ∧ scrubDead (OnRxDone payload size rssi snr lg (withDead s c m)).1
        = scrubDead (OnRxDone payload size rssi snr lg s).1
    ∧ (OnTxTimeout lg (withDead s c m)).2 = (OnTxTimeout lg s).2
    ∧ scrubDead (OnTxTimeout lg (withDead s c m)).1
        = scrubDead (OnTxTimeout lg s).1
    ∧ (OnRxTimeout lg (withDead s c m)).2 = (OnRxTimeout lg s).2
    ∧ scrubDead (OnRxTimeout lg (withDead s c m)).1
        = scrubDead (OnRxTimeout lg s).1
    ∧ (OnRxError lg (withDead s c m)).2 = (OnRxError lg s).2
    ∧ scrubDead (OnRxError lg (withDead s c m)).1 = scrubDead (OnRxError lg s).1
    ∧ (OnCadDone b lg (withDead s c m)).2 = (OnCadDone b lg s).2
    ∧ scrubDead (OnCadDone b lg (withDead s c m)).1
        = scrubDead (OnCadDone b lg s).1
    ∧ (initLoRa ret ok lg (withDead s c m)).2 = (initLoRa ret ok lg s).2
    ∧ scrubDead (initLoRa ret ok lg (withDead s c m)).1
        = scrubDead (initLoRa ret ok lg s).1
    ∧ sendCalls (OnCadDone true lg (withDead s c m)).2 = []
    ∧ Eff.radioStartCad ∉ (OnCadDone true lg (withDead s c m)).2 := by
  obtain ⟨buf, rad, led, lei, les, tei, tes, et, ct, cht, cfr, lr⟩ := s
  refine ⟨rfl, rfl, ?_, ?_, ?_, ?_, rfl, rfl, rfl, rfl, rfl, rfl, rfl, rfl,
    rfl, rfl, ?_, ?_, ?_, ?_, ?_, ?_⟩
  · cases lei <;> rfl
  · cases lei <;> rfl
  · cases les <;> rfl
  · cases les <;> rfl
  · cases b <;> rfl
  · cases b <;> rfl
  · by_cases h : ret = 1 <;> cases ok <;> simp [initLoRa, h]
  · by_cases h : ret = 1 <;> cases ok <;> simp [initLoRa, h, scrubDead, withDead]
  · cases lg <;> rfl
  · cases lg <;> simp [OnCadDone, withDead]

/-- C10: the signed assignment of -80 into the unsigned byte cell
`TxdBuffer[11]` stores the wrapped value 176 = -80 mod 256, so the
transmitted frame carries 176 at index 11. -/
theorem signal_byte_wraps (now : Nat) (logEnabled : Bool) (s : LoraState) :
    u8 (-80) = 176
    ∧ (sendLoRa now logEnabled s).1.txdBuffer 11 = 176
    ∧ frameBytes.getD 11 0 = 176 :=
  ⟨by decide, rfl, rfl⟩

end LoRaDeepSleep
